import Mathlib

/-!
Shallow embedding of the metadata-resolution core of `src/song.py`
(Music-Tagger): artist joining, release-group classification, candidate
extraction from the raw lookup response, filename scoring plumbing, best-match
selection and the confidence gate, plus the per-file branch of `main`.

Python floats that only ever flow through comparisons (the audio score) are
modelled as rationals; Python ints as integers.  Raw JSON dictionaries are
modelled as structures whose optional keys are `Option` fields, mirroring the
`json.get(key, default)` accesses of the source.  The external fuzzy scorer
`fuzz.token_set_ratio` is an opaque parameter `fs : String → String → ℤ`.
-/

namespace MusicTagger

/-- One artist-credit fragment of the lookup response:
`{name: string, joinphrase?: string}`. -/
structure RawArtist where
  name : String
  joinphrase : Option String
deriving Repr, DecidableEq

/-- `parse_artist` (src/song.py:89-95): concatenate each fragment's `name`
followed by its `joinphrase` when present. -/
def parse_artist (artists : List RawArtist) : String :=
  artists.foldl (fun acc artist => acc ++ artist.name ++ artist.joinphrase.getD "") ""

/-- `AcoustidReleaseType` (src/song.py:98-101). -/
inductive AcoustidReleaseType
  | SINGLE
  | ALBUM
  | OTHER
deriving Repr, DecidableEq

/-- `AcoustidReleaseType.get` (src/song.py:103-108): enum lookup by member
name, falling back to `dflt` on an unknown key. -/
def AcoustidReleaseType.get (key : String) (dflt : AcoustidReleaseType) : AcoustidReleaseType :=
  if key = "SINGLE" then .SINGLE
  else if key = "ALBUM" then .ALBUM
  else if key = "OTHER" then .OTHER
  else dflt

/-- `ReleaseTypeScore` (src/song.py:111-114), an IntEnum. -/
inductive ReleaseTypeScore
  | ALBUM
  | SINGLE
  | OTHER
deriving Repr, DecidableEq

/-- The integer value of the `ReleaseTypeScore` IntEnum member. -/
def ReleaseTypeScore.val : ReleaseTypeScore → ℤ
  | .ALBUM => 10
  | .SINGLE => 5
  | .OTHER => 0

/-- `ReleaseTypeScore[t.name]` (src/song.py:219): the score member with the
same name as the release-type member. -/
def releaseTypeScoreOfName : AcoustidReleaseType → ReleaseTypeScore
  | .SINGLE => .SINGLE
  | .ALBUM => .ALBUM
  | .OTHER => .OTHER

/-- Python `str.upper()` on the ASCII type names the lookup response uses:
uppercase every character. -/
def pyUpper (s : String) : String :=
  ⟨s.data.map Char.toUpper⟩

/-- `parse_types` (src/song.py:117-120). -/
def parse_types (type : String) (secondarytypes : List String) : List AcoustidReleaseType :=
  [AcoustidReleaseType.get (pyUpper type) .OTHER] ++
    secondarytypes.map (fun secondarytype => AcoustidReleaseType.get (pyUpper secondarytype) .OTHER)

/-- One raw release-group record with the keys `AcoustidRelease.from_json`
reads, each optional. -/
structure RawReleaseGroup where
  artists : Option (List RawArtist)
  title : Option String
  type : Option String
  secondarytypes : Option (List String)
deriving Repr, DecidableEq

/-- `AcoustidRelease` (src/song.py:123-127). -/
structure AcoustidRelease where
  artist : String
  title : String
  types : List AcoustidReleaseType
deriving Repr, DecidableEq

/-- `AcoustidRelease.from_json` (src/song.py:129-135). -/
def AcoustidRelease.from_json (json : RawReleaseGroup) : AcoustidRelease :=
  ⟨parse_artist (json.artists.getD []),
   json.title.getD "",
   parse_types (json.type.getD "") (json.secondarytypes.getD [])⟩

/-- One raw recording record with the keys `AcoustidRecording.from_json`
reads, each optional. -/
structure RawRecording where
  artists : Option (List RawArtist)
  title : Option String
  releasegroups : Option (List RawReleaseGroup)
deriving Repr, DecidableEq

/-- `AcoustidRecording` (src/song.py:138-142). -/
structure AcoustidRecording where
  artist : String
  title : String
  releases : List AcoustidRelease
deriving Repr, DecidableEq

/-- `AcoustidRecording.from_json` (src/song.py:144-150). -/
def AcoustidRecording.from_json (json : RawRecording) : AcoustidRecording :=
  ⟨parse_artist (json.artists.getD []),
   json.title.getD "",
   (json.releasegroups.getD []).map AcoustidRelease.from_json⟩

/-- One raw top-level result record with the keys `AcoustidResult.from_json`
reads, each optional. -/
structure RawResult where
  score : Option ℚ
  recordings : Option (List RawRecording)
deriving Repr, DecidableEq

/-- `AcoustidResult` (src/song.py:153-156). -/
structure AcoustidResult where
  score : ℚ
  recordings : List AcoustidRecording
deriving Repr, DecidableEq

/-- `AcoustidResult.from_json` (src/song.py:158-163). -/
def AcoustidResult.from_json (json : RawResult) : AcoustidResult :=
  ⟨json.score.getD 0,
   (json.recordings.getD []).map AcoustidRecording.from_json⟩

/-- The raw lookup response; the top-level `results` key may be absent. -/
structure RawResponse where
  results : Option (List RawResult)
deriving Repr, DecidableEq

/-- `Score` (src/song.py:166-170). -/
structure Score where
  audio : ℚ
  file : ℤ
  type : ReleaseTypeScore
deriving Repr, DecidableEq

/-- `Song` (src/song.py:173-177). -/
structure Song where
  artist : String
  title : String
  album : String
deriving Repr, DecidableEq

/-- `Match` (src/song.py:180-183). -/
structure Match where
  song : Song
  score : Score
deriving Repr, DecidableEq

/-- `Match.is_confident` (src/song.py:185-186): IntEnum members compare by
value, hence the `.val` on the release-type score. -/
def Match.is_confident (self : Match) : Bool :=
  decide (self.score.audio ≥ 0.40) && decide (self.score.file ≥ 70) &&
    decide (self.score.type.val ≥ ReleaseTypeScore.SINGLE.val)

/-- `find_album` (src/song.py:189-193): first release whose type list has
length one with that single type equal to ALBUM. -/
def find_album : List AcoustidRelease → Option AcoustidRelease
  | [] => none
  | release :: releases =>
    if release.types.length = 1 ∧ release.types.head? = some AcoustidReleaseType.ALBUM then
      some release
    else find_album releases

/-- `find_single` (src/song.py:196-200). -/
def find_single : List AcoustidRelease → Option AcoustidRelease
  | [] => none
  | release :: releases =>
    if release.types.length = 1 ∧ release.types.head? = some AcoustidReleaseType.SINGLE then
      some release
    else find_single releases

/-- `score_recording_for_file` (src/song.py:226-227), with the external
`fuzz.token_set_ratio` abstracted as the parameter `fs`. -/
def score_recording_for_file (fs : String → String → ℤ) (recording : AcoustidRecording)
    (basename : String) : ℤ :=
  fs (recording.artist ++ " - " ++ recording.title) basename

/-- The `release` expression of `find_best_match` (src/song.py:209-213): the
Python `or` chain over the two `Optional` lookups with the synthetic fallback
release last. -/
def find_release (recording : AcoustidRecording) : AcoustidRelease :=
  match find_album recording.releases with
  | some release => release
  | none =>
    match find_single recording.releases with
    | some release => release
    | none => ⟨"", recording.title ++ " - Single", [AcoustidReleaseType.OTHER]⟩

/-- The sentinel entry `Match(Song("", "", ""), Score(0.0, 0, OTHER))`
seeding the candidate list (src/song.py:204). -/
def sentinelMatch : Match :=
  ⟨⟨"", "", ""⟩, ⟨0, 0, ReleaseTypeScore.OTHER⟩⟩

/-- The Match appended for one recording of one result
(src/song.py:206-221). -/
def matchOfRecording (fs : String → String → ℤ) (audioScore : ℚ)
    (recording : AcoustidRecording) (mp3basename : String) : Match :=
  let file_score := score_recording_for_file fs recording mp3basename
  let release := find_release recording
  ⟨⟨recording.artist, recording.title, release.title⟩,
   ⟨audioScore, file_score, releaseTypeScoreOfName (release.types.headD AcoustidReleaseType.OTHER)⟩⟩

/-- The full candidate list `matches` built by `find_best_match`
(src/song.py:204-221): the sentinel, then one Match per recording of each
result in encounter order. -/
def buildMatches (fs : String → String → ℤ) (results : List AcoustidResult)
    (mp3basename : String) : List Match :=
  sentinelMatch ::
    results.flatMap (fun result =>
      result.recordings.map (fun recording => matchOfRecording fs result.score recording mp3basename))

/-- The ranking key `match.score.file * 1000 + match.score.type`
(src/song.py:223). -/
def matchKey (m : Match) : ℤ :=
  m.score.file * 1000 + m.score.type.val

/-- Python's `max(xs, key=k)` on a nonempty list, seeded with its first
element: a later element replaces the current best only on a strictly
greater key, so the first-encountered maximiser wins. -/
def pyMax {α : Type} (key : α → ℤ) : α → List α → α
  | best, [] => best
  | best, x :: xs => pyMax key (if key x > key best then x else best) xs

/-- `find_best_match` (src/song.py:203-223). -/
def find_best_match (fs : String → String → ℤ) (results : List AcoustidResult)
    (mp3basename : String) : Match :=
  pyMax matchKey sentinelMatch
    (results.flatMap (fun result =>
      result.recordings.map (fun recording => matchOfRecording fs result.score recording mp3basename)))

/-- Python `os.path.basename` on a POSIX path: the characters after the last
slash (src/song.py:234 passes `os.path.basename(mp3file)`). -/
def os_path_basename (p : String) : String :=
  ⟨((p.data.reverse.takeWhile (fun c => c ≠ '/')).reverse)⟩

/-- A raised Python exception. -/
inductive PyError
  | keyError (key : String)
deriving Repr, DecidableEq

/-- `fingerprint_mp3file` (src/song.py:230-236) after the network call: the
raw response is indexed with `response["results"]` (a missing key raises
`KeyError`), each result is parsed, results with zero recordings are
filtered out, and the best match for the file's basename is returned with
its confidence. -/
def fingerprint_mp3file (fs : String → String → ℤ) (response : RawResponse)
    (mp3file : String) : Except PyError (Song × Bool) :=
  match response.results with
  | none => .error (.keyError "results")
  | some raw =>
    let results := raw.map AcoustidResult.from_json
    let results := results.filter (fun result => result.recordings.length > 0)
    let m := find_best_match fs results (os_path_basename mp3file)
    .ok (m.song, m.is_confident)

/-- The observable per-file actions of `main`'s loop body. -/
inductive FileAction
  | moveToSkipDir (src dst : String)
  | promptUser
  | modifyFile (song : Song)
deriving Repr, DecidableEq

/-- The command-line flags `main`'s loop body reads. -/
structure Flags where
  skip : Bool
  manual : Bool
  skip_directory : String
  keep : Bool
deriving Repr, DecidableEq

/-- The loop body of `main` for one file (src/song.py:393-418), given the
fingerprinting outcome `(song, confident)` and the song `userSong` that
`ask_user` would return: when unconfident (or forced manual), either the
file is first copied/moved into the skip directory or the user is prompted;
in the source there is no `continue` after the skip branch, so control then
always reaches the unconditional `modify_mp3file` call at src/song.py:410,
which renames the file and writes tags. -/
def main_process_file (flags : Flags) (mp3file : String) (song : Song)
    (confident : Bool) (userSong : Song) : List FileAction × Song :=
  if ¬confident ∨ flags.manual then
    if flags.skip then
      ([FileAction.moveToSkipDir mp3file
          (flags.skip_directory ++ "/" ++ os_path_basename mp3file),
        FileAction.modifyFile song], song)
    else
      ([FileAction.promptUser, FileAction.modifyFile userSong], userSong)
  else
    ([FileAction.modifyFile song], song)


/-- The components of a Match that the selection may depend on: everything
except the audio score. -/
def selectionEq (m m' : Match) : Prop :=
  m.song = m'.song ∧ m.score.file = m'.score.file ∧ m.score.type = m'.score.type

/-- The concrete two-recording input of end-to-end scenario D. -/
def recD1 : AcoustidRecording := ⟨"A", "T1", []⟩

/-- The second recording of scenario D, with an exact album release. -/
def recD2 : AcoustidRecording := ⟨"A", "T2", [⟨"A", "G", [AcoustidReleaseType.ALBUM]⟩]⟩

/-- A filename scorer giving 95 to the first scenario-D candidate and 60 to
every other. -/
def fsD : String → String → ℤ := fun cand _ => if cand = "A - T1" then 95 else 60

/-- A filename scorer that keys on whether it was given the raw basename
with its extension. -/
def fsExt : String → String → ℤ :=
  fun _ basename => if basename = "Artist - Song.mp3" then 100 else 0

/-- The raw results used by the C9 counterexample: one recording whose
exact-single release lets the confidence gate hinge on the file score. -/
def rawC9 : List RawResult :=
  [⟨some 1, some [⟨some [⟨"Artist", none⟩], some "Song",
    some [⟨none, some "SG", some "Single", none⟩]⟩]⟩]

/- pyMax helper lemmas -/

theorem pyMax_of_le {α : Type} (key : α → ℤ) (b : α) (l : List α)
    (h : ∀ x ∈ l, key x ≤ key b) : pyMax key b l = b := by
  induction l with
  | nil => rfl
  | cons x xs ih =>
    have hx : ¬ key x > key b := not_lt.mpr (h x (List.mem_cons_self x xs))
    simp only [pyMax, if_neg hx]
    exact ih (fun y hy => h y (List.mem_cons_of_mem x hy))

theorem pyMax_first {α : Type} (key : α → ℤ) (b : α) (l1 : List α) (m : α) (l2 : List α)
    (hb : key b < key m) (h1 : ∀ x ∈ l1, key x < key m) (h2 : ∀ x ∈ l2, key x ≤ key m) :
    pyMax key b (l1 ++ m :: l2) = m := by
  induction l1 generalizing b with
  | nil =>
    simp only [List.nil_append, pyMax, if_pos hb]
    exact pyMax_of_le key m l2 h2
  | cons x xs ih =>
    simp only [List.cons_append, pyMax]
    by_cases hx : key x > key b
    · simp only [if_pos hx]
      exact ih _ (h1 x (List.mem_cons_self x xs)) (fun y hy => h1 y (List.mem_cons_of_mem x hy))
    · simp only [if_neg hx]
      exact ih _ hb (fun y hy => h1 y (List.mem_cons_of_mem x hy))

theorem selectionEq_key {m m' : Match} (h : selectionEq m m') : matchKey m = matchKey m' := by
  obtain ⟨-, hf, ht⟩ := h
  simp [matchKey, hf, ht]

theorem pyMax_selectionEq {b b' : Match} {l l' : List Match}
    (hb : selectionEq b b') (h : List.Forall₂ selectionEq l l') :
    selectionEq (pyMax matchKey b l) (pyMax matchKey b' l') := by
  induction h generalizing b b' with
  | nil => exact hb
  | cons hx hl ih =>
    simp only [pyMax]
    rw [selectionEq_key hx, selectionEq_key hb]
    split
    · exact ih hx
    · exact ih hb

theorem map_matchOfRecording_forall₂ (fs : String → String → ℤ) (name : String)
    (a a' : ℚ) (l : List AcoustidRecording) :
    List.Forall₂ selectionEq (l.map fun rec => matchOfRecording fs a rec name)
      (l.map fun rec => matchOfRecording fs a' rec name) := by
  induction l with
  | nil => exact .nil
  | cons x xs ih => exact .cons ⟨rfl, rfl, rfl⟩ ih

theorem cands_forall₂ (fs : String → String → ℤ) (name : String)
    {results results' : List AcoustidResult}
    (h : List.Forall₂ (fun r r' => r.recordings = r'.recordings) results results') :
    List.Forall₂ selectionEq
      (results.flatMap fun result =>
        result.recordings.map fun rec => matchOfRecording fs result.score rec name)
      (results'.flatMap fun result =>
        result.recordings.map fun rec => matchOfRecording fs result.score rec name) := by
  induction h with
  | nil =>
    simp only [List.flatMap_nil]
    exact List.Forall₂.nil
  | cons hr htail ih =>
    simp only [List.flatMap_cons]
    refine List.rel_append ?_ ih
    rw [← hr]
    exact map_matchOfRecording_forall₂ fs name _ _ _

/-- C1: find_best_match is the first-encountered maximiser of
file*1000 + release-tier over the sentinel-seeded candidate list, and the
audio scores never influence which candidate is selected. -/
theorem C1_first_argmax_audio_blind :
    ∀ (fs : String → String → ℤ) (results : List AcoustidResult) (mp3basename : String),
    (∀ (l1 : List Match) (m : Match) (l2 : List Match),
        buildMatches fs results mp3basename = l1 ++ m :: l2 →
        (∀ x ∈ l1, matchKey x < matchKey m) →
        (∀ x ∈ l2, matchKey x ≤ matchKey m) →
        find_best_match fs results mp3basename = m) ∧
    (∀ results' : List AcoustidResult,
        List.Forall₂ (fun r r' => r.recordings = r'.recordings) results results' →
        selectionEq (find_best_match fs results mp3basename)
          (find_best_match fs results' mp3basename)) := by
  intro fs results mp3basename
  constructor
  · intro l1 m l2 heq h1 h2
    unfold buildMatches at heq
    show pyMax matchKey sentinelMatch _ = m
    cases l1 with
    | nil =>
      rw [List.nil_append] at heq
      injection heq with hm hc
      rw [hc, ← hm]
      exact pyMax_of_le matchKey _ _ (fun x hx => hm ▸ h2 x hx)
    | cons b l1' =>
      rw [List.cons_append] at heq
      injection heq with hb hc
      rw [hc]
      refine pyMax_first matchKey sentinelMatch l1' m l2 ?_ ?_ h2
      · exact hb ▸ h1 b (List.mem_cons_self b l1')
      · exact fun x hx => h1 x (List.mem_cons_of_mem b hx)
  · intro results' h
    exact pyMax_selectionEq ⟨rfl, rfl, rfl⟩ (cands_forall₂ fs mp3basename h)


/-- Witness for C1 at the empty response: the sentinel is selected. -/
theorem C1_first_argmax_audio_blind_witness :
    find_best_match (fun _ _ => 0) [] "song" = sentinelMatch ∧
    selectionEq (find_best_match (fun _ _ => 0) [] "song")
      (find_best_match (fun _ _ => 0) [] "song") := by
  constructor
  · exact (C1_first_argmax_audio_blind (fun _ _ => 0) [] "song").1 [] sentinelMatch []
      rfl (by simp) (by simp)
  · exact (C1_first_argmax_audio_blind (fun _ _ => 0) [] "song").2 [] List.Forall₂.nil

/-- C2: the confidence gate is exactly the conjunction of the three
thresholds, and failing any one of them forces `confident = false`. -/
theorem C2_confidence_gate_strict_conjunction :
    ∀ m : Match,
    (m.is_confident = true ↔
      (m.score.audio ≥ 0.40 ∧ m.score.file ≥ 70 ∧
        m.score.type.val ≥ ReleaseTypeScore.SINGLE.val)) ∧
    ((¬ m.score.audio ≥ 0.40 ∨ ¬ m.score.file ≥ 70 ∨
        ¬ m.score.type.val ≥ ReleaseTypeScore.SINGLE.val) →
      m.is_confident = false) := by
  intro m
  constructor
  · simp [Match.is_confident, and_assoc]
  · intro h
    simp only [Match.is_confident, Bool.and_eq_false_iff, decide_eq_false_iff_not]
    rcases h with h | h | h
    · exact Or.inl (Or.inl h)
    · exact Or.inl (Or.inr h)
    · exact Or.inr h

/-- Witness for C2: audio and file thresholds met but release tier below
SINGLE is not confident. -/
theorem C2_confidence_gate_strict_conjunction_witness :
    Match.is_confident ⟨⟨"a", "t", "g"⟩, ⟨1, 100, ReleaseTypeScore.OTHER⟩⟩ = false := by
  refine (C2_confidence_gate_strict_conjunction _).2 (Or.inr (Or.inr ?_))
  norm_num [ReleaseTypeScore.val]

/-- C7: with the skip policy active and an unconfident match, the loop body
of main moves the file into the skip directory but still falls through to
the unconditional tag-writing call. -/
theorem C7_skip_still_modifies :
    main_process_file ⟨true, false, "skipped", false⟩ "downloaded/x.mp3"
        ⟨"A", "T", "G"⟩ false ⟨"U", "U", "U"⟩
      = ([FileAction.moveToSkipDir "downloaded/x.mp3" "skipped/x.mp3",
          FileAction.modifyFile ⟨"A", "T", "G"⟩], ⟨"A", "T", "G"⟩) := by
  rfl

/-- C8: a strictly higher filename score always gives a strictly higher
ranking key whatever the release tiers, whose values lie in [0, 10]; in
scenario D the 95/NONE candidate beats the 60/ALBUM one. -/
theorem C8_file_score_dominates :
    (∀ t : ReleaseTypeScore, 0 ≤ t.val ∧ t.val ≤ 10) ∧
    (∀ m1 m2 : Match, m2.score.file < m1.score.file → matchKey m2 < matchKey m1) ∧
    find_best_match fsD [⟨9/10, [recD1, recD2]⟩] "x"
      = ⟨⟨"A", "T1", "T1 - Single"⟩, ⟨9/10, 95, ReleaseTypeScore.OTHER⟩⟩ := by
  refine ⟨?_, ?_, ?_⟩
  · intro t
    cases t <;> simp [ReleaseTypeScore.val]
  · intro m1 m2 h
    have h1 : (0:ℤ) ≤ m1.score.type.val ∧ m1.score.type.val ≤ 10 := by
      cases hm : m1.score.type <;> simp [ReleaseTypeScore.val]
    have h2 : (0:ℤ) ≤ m2.score.type.val ∧ m2.score.type.val ≤ 10 := by
      cases hm : m2.score.type <;> simp [ReleaseTypeScore.val]
    unfold matchKey
    omega
  · rfl

/-- Witness for C8 at two concrete matches with file scores 60 < 95. -/
theorem C8_file_score_dominates_witness :
    matchKey ⟨⟨"", "", ""⟩, ⟨0, 60, ReleaseTypeScore.ALBUM⟩⟩
      < matchKey ⟨⟨"", "", ""⟩, ⟨0, 95, ReleaseTypeScore.OTHER⟩⟩ :=
  C8_file_score_dominates.2.1 _ _ (by norm_num)

/-- `find_album` only returns a member of its input list. -/
theorem find_album_mem {l : List AcoustidRelease} {r : AcoustidRelease}
    (h : find_album l = some r) : r ∈ l := by
  induction l with
  | nil => simp [find_album] at h
  | cons x xs ih =>
    by_cases hc : x.types.length = 1 ∧ x.types.head? = some AcoustidReleaseType.ALBUM
    · simp only [find_album, if_pos hc, Option.some.injEq] at h
      subst h
      exact List.mem_cons_self x xs
    · simp only [find_album, if_neg hc] at h
      exact List.mem_cons_of_mem x (ih h)

/-- `find_single` only returns a member of its input list. -/
theorem find_single_mem {l : List AcoustidRelease} {r : AcoustidRelease}
    (h : find_single l = some r) : r ∈ l := by
  induction l with
  | nil => simp [find_single] at h
  | cons x xs ih =>
    by_cases hc : x.types.length = 1 ∧ x.types.head? = some AcoustidReleaseType.SINGLE
    · simp only [find_single, if_pos hc, Option.some.injEq] at h
      subst h
      exact List.mem_cons_self x xs
    · simp only [find_single, if_neg hc] at h
      exact List.mem_cons_of_mem x (ih h)

/-- C10: parse_types always yields a non-empty list, every release built by
from_json has at least one type, and the release picked for a recording
whose releases all have non-empty type lists again has a non-empty type
list, so the head accesses cannot fail. -/
theorem C10_types_never_empty :
    (∀ (type : String) (secondarytypes : List String),
      parse_types type secondarytypes ≠ [] ∧
      (parse_types type secondarytypes).length = secondarytypes.length + 1) ∧
    (∀ j : RawReleaseGroup, (AcoustidRelease.from_json j).types ≠ []) ∧
    (∀ rec : AcoustidRecording, (∀ r ∈ rec.releases, r.types ≠ []) →
      (find_release rec).types ≠ []) := by
  refine ⟨?_, ?_, ?_⟩
  · intro type secondarytypes
    constructor
    · simp [parse_types]
    · simp [parse_types, Nat.add_comm]
  · intro j
    simp [AcoustidRelease.from_json, parse_types]
  · intro rec h
    unfold find_release
    split
    · next release heq => exact h release (find_album_mem heq)
    · split
      · next release heq => exact h release (find_single_mem heq)
      · simp

/-- Witness for C10 at a one-release recording with a non-empty type list. -/
theorem C10_types_never_empty_witness :
    (find_release ⟨"A", "T", [⟨"a", "t", [AcoustidReleaseType.OTHER]⟩]⟩).types ≠ [] :=
  C10_types_never_empty.2.2 ⟨"A", "T", [⟨"a", "t", [AcoustidReleaseType.OTHER]⟩]⟩
    (by intro r hr; simp at hr; subst hr; simp)


/-- `find_album` is `List.find?` of its membership test. -/
theorem find_album_eq_find? (l : List AcoustidRelease) :
    find_album l = l.find? (fun r =>
      decide (r.types.length = 1 ∧ r.types.head? = some AcoustidReleaseType.ALBUM)) := by
  induction l with
  | nil => rfl
  | cons x xs ih =>
    by_cases hc : x.types.length = 1 ∧ x.types.head? = some AcoustidReleaseType.ALBUM
    · simp [find_album, List.find?, hc]
    · simp [find_album, List.find?, hc, ih]

/-- `find_single` is `List.find?` of its membership test. -/
theorem find_single_eq_find? (l : List AcoustidRelease) :
    find_single l = l.find? (fun r =>
      decide (r.types.length = 1 ∧ r.types.head? = some AcoustidReleaseType.SINGLE)) := by
  induction l with
  | nil => rfl
  | cons x xs ih =>
    by_cases hc : x.types.length = 1 ∧ x.types.head? = some AcoustidReleaseType.SINGLE
    · simp [find_single, List.find?, hc]
    · simp [find_single, List.find?, hc, ih]

/-- C3: release selection prefers the first exact-album release, then the
first exact-single release, then the synthetic fallback single with the
lowest tier, and a Match built on the fallback never passes the gate. -/
theorem C3_release_preference_and_fallback :
    ∀ rec : AcoustidRecording,
    (find_album rec.releases = rec.releases.find? (fun r =>
      decide (r.types.length = 1 ∧ r.types.head? = some AcoustidReleaseType.ALBUM))) ∧
    (find_single rec.releases = rec.releases.find? (fun r =>
      decide (r.types.length = 1 ∧ r.types.head? = some AcoustidReleaseType.SINGLE))) ∧
    (∀ a, find_album rec.releases = some a → find_release rec = a) ∧
    (find_album rec.releases = none →
      ∀ s, find_single rec.releases = some s → find_release rec = s) ∧
    (find_album rec.releases = none → find_single rec.releases = none →
      find_release rec = ⟨"", rec.title ++ " - Single", [AcoustidReleaseType.OTHER]⟩ ∧
      releaseTypeScoreOfName ((find_release rec).types.headD AcoustidReleaseType.OTHER)
        = ReleaseTypeScore.OTHER) ∧
    (∀ (fs : String → String → ℤ) (aud : ℚ) (basename : String),
      find_album rec.releases = none → find_single rec.releases = none →
      (matchOfRecording fs aud rec basename).is_confident = false) := by
  intro rec
  refine ⟨find_album_eq_find? _, find_single_eq_find? _, ?_, ?_, ?_, ?_⟩
  · intro a ha
    simp [find_release, ha]
  · intro ha s hs
    simp [find_release, ha, hs]
  · intro ha hs
    constructor
    · simp [find_release, ha, hs]
    · simp [find_release, ha, hs, releaseTypeScoreOfName]
  · intro fs aud basename ha hs
    simp [matchOfRecording, find_release, ha, hs, Match.is_confident,
      releaseTypeScoreOfName, ReleaseTypeScore.val]

/-- Witness for C3 at a recording with no releases: the fallback single. -/
theorem C3_release_preference_and_fallback_witness :
    find_release ⟨"A", "T", []⟩ = ⟨"", "T - Single", [AcoustidReleaseType.OTHER]⟩ ∧
    (matchOfRecording (fun _ _ => 100) 1 ⟨"A", "T", []⟩ "b").is_confident = false := by
  constructor
  · exact ((C3_release_preference_and_fallback ⟨"A", "T", []⟩).2.2.2.2.1 rfl rfl).1
  · exact (C3_release_preference_and_fallback ⟨"A", "T", []⟩).2.2.2.2.2
      (fun _ _ => 100) 1 "b" rfl rfl

/-- C4 counterexample: a response without the top-level results key makes
fingerprinting raise KeyError instead of yielding zero usable recordings. -/
theorem C4_missing_results_hard_failure :
    fingerprint_mp3file (fun _ _ => 0) ⟨none⟩ "song.mp3"
      = Except.error (PyError.keyError "results") := by
  rfl

/-- C4 amended: an empty (or all-empty) results sequence yields the sentinel
and an unconfident verdict, while an absent results key is a KeyError. -/
theorem sentinel_not_confident : sentinelMatch.is_confident = false := by
  simp only [Match.is_confident, sentinelMatch]
  norm_num

theorem fingerprint_filter_nil (fs : String → String → ℤ) (mp3file : String)
    (raw : List RawResult)
    (hnil : (raw.map AcoustidResult.from_json).filter
      (fun result => result.recordings.length > 0) = []) :
    fingerprint_mp3file fs ⟨some raw⟩ mp3file = Except.ok (⟨"", "", ""⟩, false) := by
  have h1 : fingerprint_mp3file fs ⟨some raw⟩ mp3file
      = Except.ok ((find_best_match fs ((raw.map AcoustidResult.from_json).filter
          (fun result => result.recordings.length > 0)) (os_path_basename mp3file)).song,
        (find_best_match fs ((raw.map AcoustidResult.from_json).filter
          (fun result => result.recordings.length > 0)) (os_path_basename mp3file)).is_confident) := rfl
  rw [h1, hnil]
  rw [show find_best_match fs [] (os_path_basename mp3file) = sentinelMatch from rfl,
    sentinel_not_confident]
  rfl

theorem C4_empty_results_sentinel :
    ∀ (fs : String → String → ℤ) (mp3file : String),
    (find_best_match fs [] (os_path_basename mp3file) = sentinelMatch) ∧
    (sentinelMatch.is_confident = false) ∧
    (fingerprint_mp3file fs ⟨some []⟩ mp3file = Except.ok (⟨"", "", ""⟩, false)) ∧
    (∀ raw : List RawResult, (∀ r ∈ raw, r.recordings.getD [] = []) →
      fingerprint_mp3file fs ⟨some raw⟩ mp3file = Except.ok (⟨"", "", ""⟩, false)) ∧
    (fingerprint_mp3file fs ⟨none⟩ mp3file = Except.error (PyError.keyError "results")) := by
  intro fs mp3file
  have hfilter : ∀ raw : List RawResult, (∀ r ∈ raw, r.recordings.getD [] = []) →
      (raw.map AcoustidResult.from_json).filter
        (fun result => result.recordings.length > 0) = [] := by
    intro raw h
    rw [List.filter_eq_nil_iff]
    intro a ha
    obtain ⟨r, hr, hmap⟩ := List.mem_map.mp ha
    subst hmap
    simp [AcoustidResult.from_json, h r hr]
  refine ⟨rfl, sentinel_not_confident, ?_, ?_, rfl⟩
  · exact fingerprint_filter_nil fs mp3file [] rfl
  · intro raw h
    exact fingerprint_filter_nil fs mp3file raw (hfilter raw h)

/-- Witness for C4 at a response whose single result has no recordings key. -/
theorem C4_empty_results_sentinel_witness :
    fingerprint_mp3file (fun _ _ => 0) ⟨some [⟨some 1, none⟩]⟩ "x.mp3"
      = Except.ok (⟨"", "", ""⟩, false) := by
  refine (C4_empty_results_sentinel (fun _ _ => 0) "x.mp3").2.2.2.1 [⟨some 1, none⟩] ?_
  intro r hr
  simp at hr
  subst hr
  rfl

/-- C5 counterexample: a recording lacking both artists and title is parsed
with empty-string defaults, appears among the candidates, and wins. -/
theorem C5_malformed_recording_not_dropped :
    AcoustidRecording.from_json ⟨none, none, none⟩ = ⟨"", "", []⟩ ∧
    buildMatches (fun _ _ => 80) [⟨9/10, [⟨"", "", []⟩]⟩] "x"
      = [sentinelMatch, ⟨⟨"", "", " - Single"⟩, ⟨9/10, 80, ReleaseTypeScore.OTHER⟩⟩] ∧
    find_best_match (fun _ _ => 80) [⟨9/10, [⟨"", "", []⟩]⟩] "x"
      = ⟨⟨"", "", " - Single"⟩, ⟨9/10, 80, ReleaseTypeScore.OTHER⟩⟩ := by
  refine ⟨rfl, rfl, rfl⟩

/-- C5 amended: no recording is ever dropped — each contributes exactly one
candidate, and missing artists or title fields merely default to "". -/
theorem C5_every_recording_is_candidate :
    (∀ j : RawRecording, AcoustidRecording.from_json ⟨none, none, j.releasegroups⟩
      = ⟨"", "", (j.releasegroups.getD []).map AcoustidRelease.from_json⟩) ∧
    (∀ (fs : String → String → ℤ) (results : List AcoustidResult) (name : String),
      (buildMatches fs results name).length
        = 1 + (results.map (fun result => result.recordings.length)).sum) := by
  constructor
  · intro j
    rfl
  · intro fs results name
    simp [buildMatches, List.length_flatMap, Function.comp_def, List.length_map, Nat.add_comm]


/-- The enum lookup with OTHER default yields ALBUM exactly on the key
"ALBUM". -/
theorem get_eq_album_iff (k : String) :
    AcoustidReleaseType.get k AcoustidReleaseType.OTHER = AcoustidReleaseType.ALBUM
      ↔ k = "ALBUM" := by
  unfold AcoustidReleaseType.get
  split_ifs with h1 h2 h3
  · subst h1; decide
  · subst h2; decide
  · subst h3; decide
  · simp [h2]

/-- C6 amended: a release-group is classified exactly-album iff its type
uppercases to "ALBUM" and it has no secondary types; the artists field never
matters for the classification. -/
theorem C6_album_classification :
    ∀ j : RawReleaseGroup,
    (((AcoustidRelease.from_json j).types.length = 1 ∧
      (AcoustidRelease.from_json j).types.head? = some AcoustidReleaseType.ALBUM) ↔
      (pyUpper (j.type.getD "") = "ALBUM" ∧ j.secondarytypes.getD [] = [])) ∧
    (∀ artists' : Option (List RawArtist),
      (AcoustidRelease.from_json { j with artists := artists' }).types
        = (AcoustidRelease.from_json j).types) := by
  intro j
  constructor
  · simp [AcoustidRelease.from_json, parse_types, get_eq_album_iff,
      List.length_eq_zero, and_comm]
  · intro artists'
    rfl

/-- C6 counterexample: a release-group whose joined artist "Y" differs from
the recording artist "X" is still classified exactly-album and chosen, and a
lowercase "album" type is classified ALBUM as well. -/
theorem C6_artist_not_compared :
    (AcoustidRelease.from_json ⟨some [⟨"Y", none⟩], some "G", some "Album", none⟩).artist
      = "Y" ∧
    (AcoustidRelease.from_json ⟨some [⟨"Y", none⟩], some "G", some "Album", none⟩).types
      = [AcoustidReleaseType.ALBUM] ∧
    (AcoustidRecording.from_json ⟨some [⟨"X", none⟩], some "T",
        some [⟨some [⟨"Y", none⟩], some "G", some "Album", none⟩]⟩).artist = "X" ∧
    "Y" ≠ "X" ∧
    find_release (AcoustidRecording.from_json ⟨some [⟨"X", none⟩], some "T",
        some [⟨some [⟨"Y", none⟩], some "G", some "Album", none⟩]⟩)
      = AcoustidRelease.from_json ⟨some [⟨"Y", none⟩], some "G", some "Album", none⟩ ∧
    (AcoustidRelease.from_json ⟨none, none, some "album", none⟩).types
      = [AcoustidReleaseType.ALBUM] := by
  refine ⟨rfl, rfl, rfl, by decide, rfl, rfl⟩

/-- All elements of `l` satisfy `p` and `c` fails it: `takeWhile` stops at
`c` and returns exactly `l`. -/
theorem takeWhile_append_not {p : Char → Bool} (l r : List Char) (c : Char)
    (hl : ∀ x ∈ l, p x = true) (hc : p c = false) :
    (l ++ c :: r).takeWhile p = l := by
  induction l with
  | nil => simp [List.takeWhile_cons, hc]
  | cons x xs ih =>
    simp only [List.cons_append, List.takeWhile_cons, hl x (List.mem_cons_self x xs),
      if_true, List.cons.injEq, true_and]
    exact ih (fun y hy => hl y (List.mem_cons_of_mem x hy))

/-- C9 counterexample: the scorer is handed "Artist - Song.mp3" — directory
stripped but the extension retained — so a scorer that awards 100 only to
the extension-bearing string still yields a confident match. -/
theorem C9_scorer_gets_extension :
    os_path_basename "dir/Artist - Song.mp3" = "Artist - Song.mp3" ∧
    fsExt "Artist - Song" "Artist - Song" = 0 ∧
    fingerprint_mp3file fsExt ⟨some rawC9⟩ "dir/Artist - Song.mp3"
      = Except.ok (⟨"Artist", "Song", "SG"⟩, true) := by
  refine ⟨rfl, rfl, ?_⟩
  have h1 : fingerprint_mp3file fsExt ⟨some rawC9⟩ "dir/Artist - Song.mp3"
      = Except.ok ((find_best_match fsExt ((rawC9.map AcoustidResult.from_json).filter
          (fun result => result.recordings.length > 0))
          (os_path_basename "dir/Artist - Song.mp3")).song,
        (find_best_match fsExt ((rawC9.map AcoustidResult.from_json).filter
          (fun result => result.recordings.length > 0))
          (os_path_basename "dir/Artist - Song.mp3")).is_confident) := rfl
  have hm : find_best_match fsExt ((rawC9.map AcoustidResult.from_json).filter
        (fun result => result.recordings.length > 0))
        (os_path_basename "dir/Artist - Song.mp3")
      = ⟨⟨"Artist", "Song", "SG"⟩, ⟨1, 100, ReleaseTypeScore.SINGLE⟩⟩ := rfl
  have hc : Match.is_confident ⟨⟨"Artist", "Song", "SG"⟩, ⟨1, 100, ReleaseTypeScore.SINGLE⟩⟩
      = true := by
    simp only [Match.is_confident, ReleaseTypeScore.val, Bool.and_eq_true, decide_eq_true_eq]
    norm_num
  rw [h1, hm, hc]

/-- C9 amended: the scorer's filename argument is the basename — the part
after the last slash — with the extension retained; fingerprinting depends
on the path only through that basename. -/
theorem C9_basename_only_directory_stripped :
    (∀ dir f : String, (∀ c ∈ f.data, c ≠ '/') → os_path_basename (dir ++ "/" ++ f) = f) ∧
    (∀ (fs : String → String → ℤ) (resp : RawResponse) (p p' : String),
      os_path_basename p = os_path_basename p' →
      fingerprint_mp3file fs resp p = fingerprint_mp3file fs resp p') ∧
    os_path_basename "Artist - Song.mp3" = "Artist - Song.mp3" := by
  refine ⟨?_, ?_, rfl⟩
  · intro dir f h
    have hdata : (dir ++ "/" ++ f).data = dir.data ++ '/' :: f.data := by
      simp [String.data_append]
    unfold os_path_basename
    rw [hdata, List.reverse_append, List.reverse_cons, List.append_assoc,
      List.singleton_append,
      takeWhile_append_not _ _ _ (fun x hx => by
        simp only [decide_eq_true_eq]
        exact h x (List.mem_reverse.mp hx)) (by decide),
      List.reverse_reverse]
  · intro fs resp p p' h
    rcases hresp : resp.results with _ | raw
    · simp [fingerprint_mp3file, hresp]
    · simp [fingerprint_mp3file, hresp, h]

/-- Witness for C9 amended: a concrete directory is stripped while the
extension survives. -/
theorem C9_basename_only_directory_stripped_witness :
    os_path_basename ("downloads" ++ "/" ++ "track.mp3") = "track.mp3" :=
  C9_basename_only_directory_stripped.1 "downloads" "track.mp3" (by decide)

end MusicTagger
